import Mathlib

/-!
Shallow embedding of the attendance engine in `src/attendifyme.py`
(class `ModernAttendanceSystem`), covering schedule resolution
(`get_current_lecture`), marking (`mark_attendance`), roster load and
refresh (`setup_student_data`, `update_attendance_from_sheet`) and the
face-match candidate loop (`process_face_recognition`).

Python strings are modelled as lists of code points (`List Nat`);
Python's lexicographic string comparison is `pyLt` / `pyLe`.  Python
dicts are modelled as association lists with insertion-order update
semantics (`alookup` / `aset`).  Calls into the external spreadsheet
store and their failure modes are explicit parameters.
-/

namespace Attendify

/-- Lexicographic strict comparison on code-point lists: the semantics of
Python's `<` on strings, used by `start <= now <= end` in the source. -/
def pyLt : List Nat → List Nat → Bool
  | [], [] => false
  | [], _ :: _ => true
  | _ :: _, [] => false
  | a :: as, b :: bs => if a < b then true else if b < a then false else pyLt as bs

/-- Lexicographic comparison on code-point lists: Python's `<=` on strings. -/
def pyLe : List Nat → List Nat → Bool
  | [], _ => true
  | _ :: _, [] => false
  | a :: as, b :: bs => if a < b then true else if b < a then false else pyLe as bs

/-- Code points of a Lean string literal, used to write the schedule table. -/
def strCodes (s : String) : List Nat := s.data.map Char.toNat

/-- The schedule table of `get_current_lecture` (src/attendifyme.py lines
189-198), in the source's insertion order. -/
def lectures : List (String × List Nat × List Nat) :=
  [ ("Lecture1", strCodes "08:00", strCodes "09:00")
  , ("Lecture2", strCodes "09:10", strCodes "10:10")
  , ("Lecture3", strCodes "10:20", strCodes "11:20")
  , ("Lecture4", strCodes "11:30", strCodes "12:30")
  , ("Lecture5", strCodes "14:00", strCodes "15:00")
  , ("Lecture6", strCodes "15:10", strCodes "16:10")
  , ("Lecture7", strCodes "16:20", strCodes "17:20")
  , ("Lecture8", strCodes "17:30", strCodes "23:30") ]

/-- The `for lecture, (start, end) in lectures.items()` loop of
`get_current_lecture`: return the first window with
`start <= now <= end`, else `None`. -/
def findLecture : List (String × List Nat × List Nat) → List Nat → Option String
  | [], _ => none
  | (name, s, e) :: rest, now =>
      if pyLe s now && pyLe now e then some name else findLecture rest now

/-- `get_current_lecture` (src/attendifyme.py lines 188-204), with the
current `"HH:MM"` string passed in as the list of its code points. -/
def get_current_lecture (now : List Nat) : Option String :=
  findLecture lectures now

/-- Modelled from the spec: the zero-padded `"HH:MM"` rendering produced by
`datetime.now().strftime("%H:%M")` (a library call not in src/): two decimal
digits of the hour, a colon (code point 58), two decimal digits of the
minute. -/
def fmtHM (h m : Nat) : List Nat :=
  [48 + h / 10, 48 + h % 10, 58, 48 + m / 10, 48 + m % 10]

/-- The schedule with windows as minutes after midnight: the spec-side
numeric resolver configuration the refinement claim compares against. -/
def lecturesMin : List (String × Nat × Nat) :=
  [ ("Lecture1", 480, 540)
  , ("Lecture2", 550, 610)
  , ("Lecture3", 620, 680)
  , ("Lecture4", 690, 750)
  , ("Lecture5", 840, 900)
  , ("Lecture6", 910, 970)
  , ("Lecture7", 980, 1040)
  , ("Lecture8", 1050, 1410) ]

/-- First-match scan of the numeric schedule (spec-side counterpart of
`findLecture`). -/
def findLectureMin : List (String × Nat × Nat) → Nat → Option String
  | [], _ => none
  | (name, s, e) :: rest, t =>
      if s ≤ t && t ≤ e then some name else findLectureMin rest t

/-- Resolver over numeric minutes of day (spec-side counterpart of
`get_current_lecture` for the refinement claim). -/
def lectureAtMinute (t : Nat) : Option String :=
  findLectureMin lecturesMin t

/-- A roster entry: `self.students_data[prn]` is a dict with keys
`'name'` and `'attendance'`; the attendance dict is an association list
from session id to status string. -/
structure Student where
  name : String
  attendance : List (String × String)
deriving DecidableEq

/-- `self.students_data`: dict from PRN to student, in insertion order. -/
abbrev StudentsData := List (String × Student)

/-- Python dict lookup `d[k]` (as an `Option` for the `KeyError` case). -/
def alookup {α : Type} : List (String × α) → String → Option α
  | [], _ => none
  | (k, v) :: rest, key => if k = key then some v else alookup rest key

/-- Python dict assignment `d[k] = v`: overwrite in place if the key
exists, else append. -/
def aset {α : Type} : List (String × α) → String → α → List (String × α)
  | [], k, v => [(k, v)]
  | (k', v') :: rest, k, v =>
      if k' = k then (k, v) :: rest else (k', v') :: aset rest k v

/-- Python `str.strip()` on the PRN argument: drop leading and trailing
whitespace. -/
def pyStrip (s : String) : String :=
  String.mk (((s.data.dropWhile Char.isWhitespace).reverse.dropWhile Char.isWhitespace).reverse)

/-- Outcome of one `mark_attendance` call, one constructor per distinct
exit path of src/attendifyme.py lines 206-246. -/
inductive MarkOutcome where
  /-- line 208-210: `get_current_lecture` returned `None`. -/
  | noActiveLecture
  /-- line 213-215: stripped PRN is empty. -/
  | emptyPrn
  /-- line 217-219: PRN not a key of `students_data`. -/
  | prnNotFound
  /-- line 222: `student['attendance'][current_lecture]` raises `KeyError`
  (outside the `try`, so it propagates to the caller). -/
  | missingSessionKey
  /-- line 222-224: status already `'Present'`; no store call. -/
  | alreadyPresent
  /-- line 240-242: `sheet.find(prn)` found no cell. -/
  | prnNotInSheet
  /-- line 244-246: exception from `sheet.find(current_lecture)` or
  `sheet.update_cell` (transport failure, missing session column). -/
  | storeError
  /-- line 234-239: cell written, local data updated. -/
  | marked
deriving DecidableEq

/-- Observable effects of one `mark_attendance` call, in order. -/
inductive Ev where
  /-- the `sheet.update_cell(row, col, 'Present')` write. -/
  | storeWrite
  /-- the `student['attendance'][current_lecture] = 'Present'` update. -/
  | rosterUpdate
deriving DecidableEq, BEq

/-- Behaviour of the external spreadsheet during one `mark_attendance`
call: whether `sheet.find(prn)` finds a cell, whether
`sheet.find(current_lecture)` returns a cell (rather than `None`, whose
`.col` access raises), and whether `sheet.update_cell` succeeds. -/
structure Store where
  findRowOk : Bool
  findColOk : Bool
  writeOk : Bool
deriving DecidableEq

/-- Result of one `mark_attendance` call: exit path, resulting
`students_data`, and the effects performed. -/
structure MarkResult where
  outcome : MarkOutcome
  students : StudentsData
  events : List Ev
deriving DecidableEq

/-- `mark_attendance` (src/attendifyme.py lines 206-246). -/
def mark_attendance (now : List Nat) (store : Store) (students : StudentsData)
    (rawPrn : String) : MarkResult :=
  match get_current_lecture now with
  | none => ⟨.noActiveLecture, students, []⟩
  | some lec =>
    let prn := pyStrip rawPrn
    if prn = "" then ⟨.emptyPrn, students, []⟩
    else
      match alookup students prn with
      | none => ⟨.prnNotFound, students, []⟩
      | some student =>
        match alookup student.attendance lec with
        | none => ⟨.missingSessionKey, students, []⟩
        | some status =>
          if status = "Present" then ⟨.alreadyPresent, students, []⟩
          else
            if store.findRowOk then
              if store.findColOk then
                if store.writeOk then
                  ⟨.marked,
                   aset students prn
                     ⟨student.name, aset student.attendance lec "Present"⟩,
                   [.storeWrite, .rosterUpdate]⟩
                else ⟨.storeError, students, []⟩
              else ⟨.storeError, students, []⟩
            else ⟨.prnNotInSheet, students, []⟩

/-- The `for prn in matches: self.mark_attendance(prn)` loop of
`process_face_recognition` (src/attendifyme.py lines 284-287), applied to
a list of candidate PRNs. -/
def markBatch (now : List Nat) (store : Store) (students : StudentsData)
    (prns : List String) : StudentsData :=
  prns.foldl (fun st p => (mark_attendance now store st p).students) students

/-- One row of `sheet.get_all_records()`: the `'PRN'` and `'RName'` fields
(`none` models a missing column, whose `record[...]` access raises
`KeyError`) and the remaining columns, read with
`record.get(key, 'Absent')`. -/
structure RawRecord where
  prn : Option String
  rname : Option String
  statuses : List (String × String)
deriving DecidableEq

/-- The session keys `f'Lecture{i}' for i in range(1, 9)`. -/
def lectureNames : List String :=
  (List.range' 1 8).map (fun i => "Lecture" ++ toString i)

/-- `{f'Lecture{i}': 'Absent' for i in range(1, 9)}` (line 137). -/
def defaultAttendance : List (String × String) :=
  lectureNames.map (fun n => (n, "Absent"))

/-- `{f'Lecture{i}': record.get(f'Lecture{i}', 'Absent') for i in range(1, 9)}`
(line 157). -/
def attendanceFromRecord (r : RawRecord) : List (String × String) :=
  lectureNames.map (fun n => (n, (alookup r.statuses n).getD "Absent"))

/-- The rebuild loop of `update_attendance_from_sheet` (lines 152-158),
threading the dict being filled.  A record whose `'PRN'` or `'RName'`
access raises `KeyError` aborts the loop; the exception is caught by the
enclosing `except`, so the partially filled dict is what remains in
`self.students_data`. -/
def rebuild : List RawRecord → StudentsData → StudentsData
  | [], acc => acc
  | r :: rest, acc =>
    match r.prn with
    | none => acc
    | some prn =>
      match r.rname with
      | none => acc
      | some name => rebuild rest (aset acc prn ⟨name, attendanceFromRecord r⟩)

/-- `update_attendance_from_sheet` (src/attendifyme.py lines 147-161).
`fetch` is the result of `sheet.get_all_records()`; `Except.error` models
a transport/auth exception raised by that call, which is caught before
`self.students_data` is reassigned. -/
def update_attendance_from_sheet (students : StudentsData)
    (fetch : Except Unit (List RawRecord)) : StudentsData :=
  match fetch with
  | .error _ => students
  | .ok records => rebuild records []

/-- The build loop of `setup_student_data` (lines 132-138).  A `KeyError`
on `'PRN'` or `'RName'` propagates to the `except` block, which re-raises
(line 145), so the whole load fails. -/
def setupLoop : List RawRecord → StudentsData → Except Unit StudentsData
  | [], acc => .ok acc
  | r :: rest, acc =>
    match r.prn, r.rname with
    | some prn, some name =>
        setupLoop rest (aset acc prn ⟨name, defaultAttendance⟩)
    | _, _ => .error ()

/-- `setup_student_data` (src/attendifyme.py lines 128-145): build every
student with all-`'Absent'` attendance, then call
`update_attendance_from_sheet`, which fetches again (`fetch2`).  Any
exception is re-raised (`Except.error`). -/
def setup_student_data (fetch fetch2 : Except Unit (List RawRecord)) :
    Except Unit StudentsData :=
  match fetch with
  | .error e => .error e
  | .ok records =>
    match setupLoop records [] with
    | .error e => .error e
    | .ok data => .ok (update_attendance_from_sheet data fetch2)

/-- Sum of squared coordinate differences of two equal-length vectors
(the square of the Euclidean distance used by the matcher). -/
def sumSqDiff : List Rat → List Rat → Rat
  | a :: as, b :: bs => (a - b) * (a - b) + sumSqDiff as bs
  | _, _ => 0

/-- The `for prn, known_encoding in self.face_encodings.items()` loop of
`process_face_recognition` (lines 277-282): collect the PRNs whose
template matches the probe, in insertion order.  The acceptance test of
`face_recognition.compare_faces` (an external library call) is modelled
from the spec: a candidate is accepted iff the Euclidean distance between
template and probe is within `tolerance`; for `tol ≥ 0` this is the same
as comparing the sum of squared differences with `tol * tol`, the
executable form used here.  A dimensionality mismatch raises
(`Except.error`), as the underlying vector subtraction does, and the
error propagates out of the loop. -/
def candidatesForProbe : List (String × List Rat) → List Rat → Rat →
    Except Unit (List String)
  | [], _, _ => .ok []
  | (prn, known) :: rest, probe, tol =>
    if known.length = probe.length then
      match candidatesForProbe rest probe tol with
      | .error e => .error e
      | .ok ms => .ok (if sumSqDiff known probe ≤ tol * tol then prn :: ms else ms)
    else .error ()

/-- The `for face_encoding in face_encodings` loop of
`process_face_recognition` (lines 277-287): candidate lists per probe, in
order.  The whole loop body sits inside one `try`; an exception raised
while processing a probe aborts the remaining probes (the Boolean
component records that the batch was aborted, after which the handler
deactivates face recognition). -/
def frameCandidates : List (List Rat) → List (String × List Rat) → Rat →
    List (List String) × Bool
  | [], _, _ => ([], false)
  | probe :: rest, encs, tol =>
    match candidatesForProbe encs probe tol with
    | .error _ => ([], true)
    | .ok cs =>
      let r := frameCandidates rest encs tol
      (cs :: r.1, r.2)

/-! ### Association-list lemmas -/

theorem alookup_aset_self {α : Type} (l : List (String × α)) (k : String) (v : α) :
    alookup (aset l k v) k = some v := by
  induction l with
  | nil => simp [aset, alookup]
  | cons hd t ih =>
    obtain ⟨k', v'⟩ := hd
    by_cases hk : k' = k
    · simp [aset, hk, alookup]
    · simp [aset, hk, alookup, ih]

theorem alookup_aset_ne {α : Type} (l : List (String × α)) (k key : String) (v : α)
    (h : key ≠ k) : alookup (aset l k v) key = alookup l key := by
  induction l with
  | nil => simp [aset, alookup, Ne.symm h]
  | cons hd t ih =>
    obtain ⟨k', v'⟩ := hd
    by_cases hk : k' = k
    · subst hk
      simp [aset, alookup, Ne.symm h]
    · by_cases hk2 : k' = key <;> simp [aset, hk, alookup, hk2, ih, h]

theorem mem_of_alookup {α : Type} (l : List (String × α)) (k : String) (v : α)
    (h : alookup l k = some v) : (k, v) ∈ l := by
  induction l with
  | nil => simp [alookup] at h
  | cons hd t ih =>
    obtain ⟨k', v'⟩ := hd
    by_cases hk : k' = k
    · subst hk
      simp [alookup] at h
      simp [h]
    · simp [alookup, hk] at h
      exact List.mem_cons_of_mem _ (ih h)

theorem mem_aset {α : Type} (l : List (String × α)) (k : String) (v : α) (e : String × α)
    (h : e ∈ aset l k v) : e ∈ l ∨ e = (k, v) := by
  induction l with
  | nil =>
    simp [aset] at h
    simp [h]
  | cons hd t ih =>
    obtain ⟨k', v'⟩ := hd
    by_cases hk : k' = k
    · simp [aset, hk] at h
      rcases h with h | h
      · exact Or.inr (by simp [h])
      · exact Or.inl (List.mem_cons_of_mem _ h)
    · simp [aset, hk] at h
      rcases h with h | h
      · exact Or.inl (by simp [h])
      · rcases ih h with h2 | h2
        · exact Or.inl (List.mem_cons_of_mem _ h2)
        · exact Or.inr h2

theorem alookup_isSome_of_mem_keys {α : Type} (names : List String) (f : String → α)
    (k : String) :
    k ∈ names → (alookup (names.map (fun n => (n, f n))) k).isSome = true := by
  induction names with
  | nil => intro h; simp at h
  | cons n t ih =>
    intro h
    by_cases hk : n = k
    · simp [alookup, hk]
    · have hmem : k ∈ t := by
        rcases List.mem_cons.mp h with h1 | h1
        · exact absurd h1.symm hk
        · exact h1
      simp [alookup, hk, ih hmem]

/-! ### Lexicographic comparison lemmas -/

theorem pyLt_cons (a b : Nat) (as bs : List Nat) :
    pyLt (a :: as) (b :: bs) = true ↔ (a < b ∨ (a = b ∧ pyLt as bs = true)) := by
  simp only [pyLt]
  split_ifs with h1 h2
  · simp [h1]
  · simp only [Bool.false_eq_true, false_iff]
    rintro (h | ⟨h, _⟩) <;> omega
  · have hab : a = b := by omega
    simp [hab]

theorem pyLe_cons (a b : Nat) (as bs : List Nat) :
    pyLe (a :: as) (b :: bs) = true ↔ (a < b ∨ (a = b ∧ pyLe as bs = true)) := by
  simp only [pyLe]
  split_ifs with h1 h2
  · simp [h1]
  · simp only [Bool.false_eq_true, false_iff]
    rintro (h | ⟨h, _⟩) <;> omega
  · have hab : a = b := by omega
    simp [hab]

theorem pyLt_nil_iff : pyLt [] [] = true ↔ False := by simp [pyLt]

theorem pyLe_nil_iff : pyLe [] [] = true ↔ True := by simp [pyLe]

/-- Lexicographic order on zero-padded `"HH:MM"` strings agrees with
chronological order of the denoted times (strict version). -/
theorem pyLt_fmtHM (h1 m1 h2 m2 : Nat) (hh1 : h1 < 24) (hm1 : m1 < 60)
    (hh2 : h2 < 24) (hm2 : m2 < 60) :
    (pyLt (fmtHM h1 m1) (fmtHM h2 m2) = true ↔ 60 * h1 + m1 < 60 * h2 + m2) := by
  simp only [fmtHM, pyLt_cons, pyLt_nil_iff]
  norm_num
  omega

/-- Lexicographic order on zero-padded `"HH:MM"` strings agrees with
chronological order of the denoted times (non-strict version). -/
theorem pyLe_fmtHM (h1 m1 h2 m2 : Nat) (hh1 : h1 < 24) (hm1 : m1 < 60)
    (hh2 : h2 < 24) (hm2 : m2 < 60) :
    (pyLe (fmtHM h1 m1) (fmtHM h2 m2) = true ↔ 60 * h1 + m1 ≤ 60 * h2 + m2) := by
  simp only [fmtHM, pyLe_cons, pyLe_nil_iff]
  norm_num
  omega

/-! ### Resolver lemmas -/

/-- The resolver loop returns the first window of the table that contains
`now`, in the sense of `List.find?`. -/
theorem findLecture_eq_find? (L : List (String × List Nat × List Nat)) (now : List Nat) :
    findLecture L now =
      (L.find? (fun p => pyLe p.2.1 now && pyLe now p.2.2)).map Prod.fst := by
  induction L with
  | nil => rfl
  | cons hd t ih =>
    obtain ⟨name, s, e⟩ := hd
    by_cases hc : (pyLe s now && pyLe now e) = true
    · simp [findLecture, hc, List.find?]
    · simp only [findLecture, List.find?, hc]
      simpa using ih

/-! ### `mark_attendance` case analysis -/

/-- Every `mark_attendance` run either changes nothing and performs no
effect, or takes the full success path: it resolves a session, finds the
student under the stripped PRN, performs the store write followed by the
roster update, and replaces exactly that student's entry for that
session. -/
theorem mark_spec (now : List Nat) (store : Store) (students : StudentsData)
    (rawPrn : String) :
    ((mark_attendance now store students rawPrn).outcome ≠ MarkOutcome.marked ∧
      (mark_attendance now store students rawPrn).students = students ∧
      (mark_attendance now store students rawPrn).events = []) ∨
    (∃ lec student,
      get_current_lecture now = some lec ∧
      alookup students (pyStrip rawPrn) = some student ∧
      (mark_attendance now store students rawPrn).outcome = MarkOutcome.marked ∧
      (mark_attendance now store students rawPrn).events = [Ev.storeWrite, Ev.rosterUpdate] ∧
      (mark_attendance now store students rawPrn).students =
        aset students (pyStrip rawPrn)
          ⟨student.name, aset student.attendance lec "Present"⟩) := by
  cases hlec : get_current_lecture now with
  | none => simp_all [mark_attendance]
  | some lec =>
    by_cases hempty : pyStrip rawPrn = ""
    · simp_all [mark_attendance]
    · cases hstu : alookup students (pyStrip rawPrn) with
      | none => simp_all [mark_attendance]
      | some student =>
        cases hatt : alookup student.attendance lec with
        | none => simp_all [mark_attendance]
        | some status =>
          by_cases hpres : status = "Present"
          · simp_all [mark_attendance]
          · cases hrow : store.findRowOk with
            | false => simp_all [mark_attendance]
            | true =>
              cases hcol : store.findColOk with
              | false => simp_all [mark_attendance]
              | true =>
                cases hw : store.writeOk with
                | false => simp_all [mark_attendance]
                | true =>
                  right
                  exact ⟨lec, student, rfl, rfl,
                    by simp_all [mark_attendance],
                    by simp_all [mark_attendance],
                    by simp_all [mark_attendance]⟩

/-! ### Roster completeness invariant -/

/-- Every roster entry carries a status entry for every session of the
schedule configuration. -/
def wfRoster (s : StudentsData) : Prop :=
  ∀ e ∈ s, ∀ p ∈ lectures, (alookup e.2.attendance p.1).isSome = true

instance (s : StudentsData) : Decidable (wfRoster s) := by
  unfold wfRoster; infer_instance

theorem wf_nil : wfRoster [] := by simp [wfRoster]

theorem wf_aset (s : StudentsData) (k : String) (stu : Student)
    (hs : wfRoster s)
    (hstu : ∀ p ∈ lectures, (alookup stu.attendance p.1).isSome = true) :
    wfRoster (aset s k stu) := by
  intro e he p hp
  rcases mem_aset s k stu e he with h | h
  · exact hs e h p hp
  · subst h
    exact hstu p hp

/-- Every session name of the schedule is one of the `f'Lecture{i}'` keys
used to build attendance dicts. -/
theorem lectureNames_complete : ∀ p ∈ lectures, p.1 ∈ lectureNames := by decide

theorem wf_attendanceFromRecord (r : RawRecord) :
    ∀ p ∈ lectures, (alookup (attendanceFromRecord r) p.1).isSome = true := by
  intro p hp
  exact alookup_isSome_of_mem_keys lectureNames _ p.1 (lectureNames_complete p hp)

theorem wf_defaultAttendance :
    ∀ p ∈ lectures, (alookup defaultAttendance p.1).isSome = true := by
  intro p hp
  exact alookup_isSome_of_mem_keys lectureNames _ p.1 (lectureNames_complete p hp)

theorem wf_rebuild (records : List RawRecord) (acc : StudentsData)
    (hacc : wfRoster acc) : wfRoster (rebuild records acc) := by
  induction records generalizing acc with
  | nil => simpa [rebuild] using hacc
  | cons r rest ih =>
    cases hprn : r.prn with
    | none => simpa [rebuild, hprn] using hacc
    | some prn =>
      cases hname : r.rname with
      | none => simpa [rebuild, hprn, hname] using hacc
      | some name =>
        simp only [rebuild, hprn, hname]
        exact ih _ (wf_aset _ _ _ hacc (wf_attendanceFromRecord r))

theorem wf_setupLoop (records : List RawRecord) (acc d : StudentsData)
    (hacc : wfRoster acc) (h : setupLoop records acc = Except.ok d) :
    wfRoster d := by
  induction records generalizing acc with
  | nil =>
    simp [setupLoop] at h
    exact h ▸ hacc
  | cons r rest ih =>
    cases hprn : r.prn with
    | none => simp [setupLoop, hprn] at h
    | some prn =>
      cases hname : r.rname with
      | none => simp [setupLoop, hprn, hname] at h
      | some name =>
        simp only [setupLoop, hprn, hname] at h
        exact ih _ (wf_aset _ _ _ hacc wf_defaultAttendance) h

theorem wf_update (students : StudentsData) (fetch : Except Unit (List RawRecord))
    (hs : wfRoster students) :
    wfRoster (update_attendance_from_sheet students fetch) := by
  cases fetch with
  | error e => simpa [update_attendance_from_sheet] using hs
  | ok records =>
    simpa [update_attendance_from_sheet] using wf_rebuild records [] wf_nil

theorem wf_mark (now : List Nat) (store : Store) (students : StudentsData)
    (rawPrn : String) (hs : wfRoster students) :
    wfRoster (mark_attendance now store students rawPrn).students := by
  rcases mark_spec now store students rawPrn with ⟨_, hst, _⟩ |
    ⟨lec, student, hlec, hstu, _, _, hst⟩
  · rw [hst]; exact hs
  · rw [hst]
    apply wf_aset _ _ _ hs
    intro p hp
    by_cases hl : p.1 = lec
    · simp [hl, alookup_aset_self]
    · rw [alookup_aset_ne _ _ _ _ hl]
      exact hs _ (mem_of_alookup _ _ _ hstu) p hp

theorem wf_markBatch (now : List Nat) (store : Store) (students : StudentsData)
    (prns : List String) (hs : wfRoster students) :
    wfRoster (markBatch now store students prns) := by
  induction prns generalizing students with
  | nil => simpa [markBatch] using hs
  | cons p rest ih =>
    simp only [markBatch, List.foldl_cons]
    simpa [markBatch] using ih _ (wf_mark now store students p hs)

/-! ### Load and refresh abort behaviour -/

/-- `setupLoop` fails outright as soon as any record lacks the `'PRN'`
field. -/
theorem setupLoop_error_of_bad (records : List RawRecord) (acc : StudentsData)
    (h : ∃ r ∈ records, r.prn = none) :
    setupLoop records acc = Except.error () := by
  induction records generalizing acc with
  | nil => simp at h
  | cons r rest ih =>
    rcases h with ⟨rb, hmem, hbad⟩
    rcases List.mem_cons.mp hmem with h1 | h1
    · subst h1
      simp [setupLoop, hbad]
    · cases hprn : r.prn with
      | none => simp [setupLoop, hprn]
      | some prn =>
        cases hname : r.rname with
        | none => simp [setupLoop, hprn, hname]
        | some name =>
          simp only [setupLoop, hprn, hname]
          exact ih _ ⟨rb, h1, hbad⟩

/-- The refresh rebuild loop stops at the first record lacking `'PRN'` or
`'RName'`, keeping exactly the records before it and dropping the rest. -/
theorem rebuild_stops (good : List RawRecord) (bad : RawRecord)
    (rest : List RawRecord)
    (hgood : ∀ r ∈ good, r.prn ≠ none ∧ r.rname ≠ none)
    (hbad : bad.prn = none ∨ bad.rname = none) (acc : StudentsData) :
    rebuild (good ++ bad :: rest) acc = rebuild good acc := by
  induction good generalizing acc with
  | nil =>
    rcases hbad with h | h
    · simp [rebuild, h]
    · cases hprn : bad.prn with
      | none => simp [rebuild, hprn]
      | some prn => simp [rebuild, hprn, h]
  | cons g gs ih =>
    have hg := hgood g (by simp)
    cases hprn : g.prn with
    | none => exact absurd hprn hg.1
    | some prn =>
      cases hname : g.rname with
      | none => exact absurd hname hg.2
      | some name =>
        simp only [List.cons_append, rebuild, hprn, hname]
        exact ih (fun r hr => hgood r (List.mem_cons_of_mem _ hr)) _

/-! ### Matcher lemmas -/

theorem sumSqDiff_nonneg (as bs : List Rat) : 0 ≤ sumSqDiff as bs := by
  induction as generalizing bs with
  | nil => simp [sumSqDiff]
  | cons a t ih =>
    cases bs with
    | nil => simp [sumSqDiff]
    | cons b bs =>
      simp only [sumSqDiff]
      have h1 := mul_self_nonneg (a - b)
      have h2 := ih bs
      linarith

theorem sumSqDiff_self (as : List Rat) : sumSqDiff as as = 0 := by
  induction as with
  | nil => simp [sumSqDiff]
  | cons a t ih => simp [sumSqDiff, ih]

theorem eq_of_sumSqDiff_eq_zero (as : List Rat) :
    ∀ bs : List Rat, as.length = bs.length → sumSqDiff as bs = 0 → as = bs := by
  induction as with
  | nil =>
    intro bs hlen _
    cases bs with
    | nil => rfl
    | cons b bs => simp at hlen
  | cons a t ih =>
    intro bs hlen h
    cases bs with
    | nil => simp at hlen
    | cons b bs =>
      simp only [sumSqDiff] at h
      have hsq := mul_self_nonneg (a - b)
      have hrest := sumSqDiff_nonneg t bs
      have h1 : (a - b) * (a - b) = 0 := by linarith
      have h2 : sumSqDiff t bs = 0 := by linarith
      have hab : a = b := by
        have := mul_self_eq_zero.mp h1
        linarith
      rw [hab, ih bs (by simpa using hlen) h2]

/-- When every template has the probe's dimensionality, the candidate
loop succeeds and returns exactly the subjects whose template is within
tolerance of the probe. -/
theorem candidates_ok (encs : List (String × List Rat)) (probe : List Rat) (tol : Rat)
    (hdim : ∀ e ∈ encs, e.2.length = probe.length) :
    ∃ ms, candidatesForProbe encs probe tol = Except.ok ms ∧
      ∀ prn, prn ∈ ms ↔ ∃ v, (prn, v) ∈ encs ∧ sumSqDiff v probe ≤ tol * tol := by
  induction encs with
  | nil => exact ⟨[], rfl, by simp⟩
  | cons e rest ih =>
    obtain ⟨prn0, known⟩ := e
    have hlen : known.length = probe.length := hdim (prn0, known) (by simp)
    obtain ⟨ms, hms, hiff⟩ := ih (fun e he => hdim e (List.mem_cons_of_mem _ he))
    by_cases hacc : sumSqDiff known probe ≤ tol * tol
    · refine ⟨prn0 :: ms, by simp [candidatesForProbe, hlen, hms, hacc], ?_⟩
      intro prn
      constructor
      · intro hmem
        rcases List.mem_cons.mp hmem with h | h
        · exact ⟨known, by simp [h], hacc⟩
        · obtain ⟨v, hv, hvle⟩ := (hiff prn).mp h
          exact ⟨v, List.mem_cons_of_mem _ hv, hvle⟩
      · rintro ⟨v, hv, hvle⟩
        rcases List.mem_cons.mp hv with h | h
        · rw [Prod.mk.injEq] at h
          exact List.mem_cons.mpr (Or.inl h.1)
        · exact List.mem_cons_of_mem _ ((hiff prn).mpr ⟨v, h, hvle⟩)
    · refine ⟨ms, by simp [candidatesForProbe, hlen, hms, hacc], ?_⟩
      intro prn
      rw [hiff]
      constructor
      · rintro ⟨v, hv, hvle⟩
        exact ⟨v, List.mem_cons_of_mem _ hv, hvle⟩
      · rintro ⟨v, hv, hvle⟩
        rcases List.mem_cons.mp hv with h | h
        · rw [Prod.mk.injEq] at h
          rw [h.2] at hvle
          exact absurd hvle hacc
        · exact ⟨v, h, hvle⟩

/-! ### Claim theorems -/

/-- C2: for every time-of-day string, `get_current_lecture` returns the
first configured window containing it under the closed-interval test
(`start <= now <= end`) and `none` when no window contains it; at each
window's exact start and exact end it returns that window's session. -/
theorem C2_current_session (now : List Nat) :
    (get_current_lecture now =
      (lectures.find? (fun p => pyLe p.2.1 now && pyLe now p.2.2)).map Prod.fst) ∧
    (get_current_lecture now = none ↔
      ∀ p ∈ lectures, ¬(pyLe p.2.1 now = true ∧ pyLe now p.2.2 = true)) ∧
    (∀ p ∈ lectures,
      get_current_lecture p.2.1 = some p.1 ∧ get_current_lecture p.2.2 = some p.1) := by
  refine ⟨findLecture_eq_find? lectures now, ?_, by decide⟩
  rw [get_current_lecture, findLecture_eq_find?, Option.map_eq_none', List.find?_eq_none]
  simp [Bool.and_eq_true]

/-- Boundary instance of C2 at the first window. -/
theorem C2_current_session_witness :
    get_current_lecture (strCodes "08:00") = some "Lecture1" ∧
    get_current_lecture (strCodes "09:00") = some "Lecture1" :=
  (C2_current_session (strCodes "08:00")).2.2
    ("Lecture1", strCodes "08:00", strCodes "09:00") (by decide)

/-- C1 counterexample: for a subject already marked Present in the active
session, the FIRST of the two calls already returns the duplicate
outcome, not `marked`, so the claim fails as universally stated. -/
theorem C1_counterexample :
    (mark_attendance (strCodes "08:30") ⟨true, true, true⟩
        [("A1", ⟨"Alice", aset defaultAttendance "Lecture1" "Present"⟩)] "A1").outcome =
      MarkOutcome.alreadyPresent ∧
    MarkOutcome.alreadyPresent ≠ MarkOutcome.marked := by decide

/-- C1 (amended): for an identifier that is its own trimmed form,
nonempty and known to the roster, an active session in which the subject
is not yet Present, and a store whose lookups and write succeed, two
immediate calls yield `marked` then `alreadyPresent`, with exactly one
store write across the two calls. -/
theorem C1_mark_twice (now : List Nat) (store : Store) (students : StudentsData)
    (id lec : String) (student : Student) (st0 : String)
    (hlec : get_current_lecture now = some lec)
    (hid : pyStrip id = id) (hne : id ≠ "")
    (hstu : alookup students id = some student)
    (hst : alookup student.attendance lec = some st0)
    (hnp : st0 ≠ "Present")
    (hrow : store.findRowOk = true) (hcol : store.findColOk = true)
    (hw : store.writeOk = true) :
    (mark_attendance now store students id).outcome = MarkOutcome.marked ∧
    (mark_attendance now store
        (mark_attendance now store students id).students id).outcome =
      MarkOutcome.alreadyPresent ∧
    ((mark_attendance now store students id).events ++
      (mark_attendance now store
        (mark_attendance now store students id).students id).events).count
      Ev.storeWrite = 1 := by
  have h1 : mark_attendance now store students id =
      ⟨MarkOutcome.marked,
       aset students id ⟨student.name, aset student.attendance lec "Present"⟩,
       [Ev.storeWrite, Ev.rosterUpdate]⟩ := by
    simp [mark_attendance, hlec, hid, hne, hstu, hst, hnp, hrow, hcol, hw]
  have h2 : mark_attendance now store
      (aset students id ⟨student.name, aset student.attendance lec "Present"⟩) id =
      ⟨MarkOutcome.alreadyPresent,
       aset students id ⟨student.name, aset student.attendance lec "Present"⟩, []⟩ := by
    simp [mark_attendance, hlec, hid, hne, alookup_aset_self]
  rw [h1]
  simp [h2]
  decide

/-- Concrete run of the amended C1 statement. -/
theorem C1_mark_twice_witness :
    (mark_attendance (strCodes "08:30") ⟨true, true, true⟩
        [("A1", ⟨"Alice", defaultAttendance⟩)] "A1").outcome = MarkOutcome.marked ∧
    (mark_attendance (strCodes "08:30") ⟨true, true, true⟩
        (mark_attendance (strCodes "08:30") ⟨true, true, true⟩
          [("A1", ⟨"Alice", defaultAttendance⟩)] "A1").students "A1").outcome =
      MarkOutcome.alreadyPresent ∧
    ((mark_attendance (strCodes "08:30") ⟨true, true, true⟩
        [("A1", ⟨"Alice", defaultAttendance⟩)] "A1").events ++
      (mark_attendance (strCodes "08:30") ⟨true, true, true⟩
        (mark_attendance (strCodes "08:30") ⟨true, true, true⟩
          [("A1", ⟨"Alice", defaultAttendance⟩)] "A1").students "A1").events).count
      Ev.storeWrite = 1 :=
  C1_mark_twice (strCodes "08:30") ⟨true, true, true⟩
    [("A1", ⟨"Alice", defaultAttendance⟩)] "A1" "Lecture1"
    ⟨"Alice", defaultAttendance⟩ "Absent"
    (by decide) (by decide) (by decide) (by decide) (by decide) (by decide)
    rfl rfl rfl

/-- C3: the store write always precedes the roster update (the only
effect traces are empty or write-then-update), any non-`marked` outcome
(including row not found, column not found and write failure) leaves the
roster exactly as it was, and a `marked` outcome performed both effects
in order. -/
theorem C3_write_through_order (now : List Nat) (store : Store)
    (students : StudentsData) (rawPrn : String) :
    ((mark_attendance now store students rawPrn).events = [] ∨
     (mark_attendance now store students rawPrn).events =
       [Ev.storeWrite, Ev.rosterUpdate]) ∧
    ((mark_attendance now store students rawPrn).outcome ≠ MarkOutcome.marked →
      (mark_attendance now store students rawPrn).students = students) ∧
    ((mark_attendance now store students rawPrn).outcome = MarkOutcome.marked →
      (mark_attendance now store students rawPrn).events =
        [Ev.storeWrite, Ev.rosterUpdate]) := by
  rcases mark_spec now store students rawPrn with ⟨ho, hs, he⟩ |
    ⟨lec, stu, _, _, ho, he, hs⟩
  · exact ⟨Or.inl he, fun _ => hs, fun h => absurd h ho⟩
  · exact ⟨Or.inr he, fun h => absurd ho h, fun _ => he⟩

/-- Concrete run of C3: a failed store write leaves the roster unchanged. -/
theorem C3_write_through_order_witness :
    (mark_attendance (strCodes "08:30") ⟨true, true, false⟩
      [("A1", ⟨"Alice", defaultAttendance⟩)] "A1").students =
      [("A1", ⟨"Alice", defaultAttendance⟩)] :=
  (C3_write_through_order (strCodes "08:30") ⟨true, true, false⟩
    [("A1", ⟨"Alice", defaultAttendance⟩)] "A1").2.1 (by decide)

/-- C4 counterexample: a refresh whose fetched records contain one record
without a `'PRN'` field fails mid-rebuild and leaves the roster emptied,
not with its previous contents. -/
theorem C4_counterexample :
    update_attendance_from_sheet [("A1", ⟨"Alice", defaultAttendance⟩)]
        (Except.ok [⟨none, some "X", []⟩]) = [] ∧
    [("A1", (⟨"Alice", defaultAttendance⟩ : Student))] ≠ ([] : StudentsData) := by
  exact ⟨rfl, by decide⟩

/-- C4 (amended): a transport/auth failure raised by the store read
leaves the roster exactly as it was; a failure raised while rebuilding
(a record missing `'PRN'` or `'RName'`) instead truncates the roster to
the well-formed records before the bad one. -/
theorem C4_refresh (students : StudentsData) (e : Unit)
    (good : List RawRecord) (bad : RawRecord) (rest : List RawRecord)
    (hgood : ∀ r ∈ good, r.prn ≠ none ∧ r.rname ≠ none)
    (hbad : bad.prn = none ∨ bad.rname = none) :
    update_attendance_from_sheet students (Except.error e) = students ∧
    update_attendance_from_sheet students (Except.ok (good ++ bad :: rest)) =
      rebuild good [] := by
  exact ⟨rfl, by
    simp [update_attendance_from_sheet, rebuild_stops good bad rest hgood hbad]⟩

/-- Concrete run of the amended C4 statement. -/
theorem C4_refresh_witness :
    update_attendance_from_sheet [("A1", ⟨"Alice", defaultAttendance⟩)]
      (Except.error ()) = [("A1", ⟨"Alice", defaultAttendance⟩)] ∧
    update_attendance_from_sheet [("A1", ⟨"Alice", defaultAttendance⟩)]
      (Except.ok ([⟨some "B", some "Bob", []⟩] ++ ⟨none, some "X", []⟩ :: [])) =
      rebuild [⟨some "B", some "Bob", []⟩] [] :=
  C4_refresh [("A1", ⟨"Alice", defaultAttendance⟩)] ()
    [⟨some "B", some "Bob", []⟩] ⟨none, some "X", []⟩ [] (by decide) (by decide)

/-- C5 counterexample: a load whose records contain one record without an
identifier field fails as a whole (`setup_student_data` re-raises),
instead of skipping the bad record and keeping the two well-formed ones. -/
theorem C5_counterexample :
    setup_student_data
      (Except.ok [⟨some "A", some "Alice", []⟩, ⟨none, some "X", []⟩,
        ⟨some "B", some "Bob", []⟩])
      (Except.ok []) = Except.error () := rfl

/-- C5 (amended): a record with an absent identifier field aborts the
load: the setup build loop, and `setup_student_data` as a whole, fail
outright rather than skipping the record. -/
theorem C5_load_aborts (records : List RawRecord) (acc : StudentsData)
    (fetch2 : Except Unit (List RawRecord))
    (h : ∃ r ∈ records, r.prn = none) :
    setupLoop records acc = Except.error () ∧
    setup_student_data (Except.ok records) fetch2 = Except.error () := by
  refine ⟨setupLoop_error_of_bad records acc h, ?_⟩
  simp [setup_student_data, setupLoop_error_of_bad records [] h]

/-- Concrete run of the amended C5 statement. -/
theorem C5_load_aborts_witness :
    setupLoop [⟨none, some "X", []⟩] [] = Except.error () ∧
    setup_student_data (Except.ok [⟨none, some "X", []⟩]) (Except.ok []) =
      Except.error () :=
  C5_load_aborts [⟨none, some "X", []⟩] [] (Except.ok [])
    ⟨⟨none, some "X", []⟩, by decide, rfl⟩

/-- C6 counterexample: a refresh copies status strings verbatim from the
store, so an empty cell yields the entry `""`, which is neither `Present`
nor `Absent` (and not the claimed default `Absent`). -/
theorem C6_counterexample :
    (alookup (update_attendance_from_sheet []
        (Except.ok [⟨some "A1", some "Alice", [("Lecture1", "")]⟩])) "A1").map
      (fun s => alookup s.attendance "Lecture1") = some (some "") ∧
    ("" : String) ≠ "Present" ∧ ("" : String) ≠ "Absent" := by decide

/-- C6 (amended): every operation (load, refresh, marking, biometric
batch marking) preserves the completeness invariant: each roster entry
has a defined status entry for every session of the schedule
configuration — records are never left with missing session entries. -/
theorem C6_invariant :
    (∀ f1 f2 d, setup_student_data f1 f2 = Except.ok d → wfRoster d) ∧
    (∀ students fetch, wfRoster students →
      wfRoster (update_attendance_from_sheet students fetch)) ∧
    (∀ now store students rawPrn, wfRoster students →
      wfRoster (mark_attendance now store students rawPrn).students) ∧
    (∀ now store students prns, wfRoster students →
      wfRoster (markBatch now store students prns)) := by
  refine ⟨?_, fun s f hs => wf_update s f hs,
    fun n st s p hs => wf_mark n st s p hs,
    fun n st s ps hs => wf_markBatch n st s ps hs⟩
  intro f1 f2 d h
  cases f1 with
  | error e => simp [setup_student_data] at h
  | ok records =>
    cases hloop : setupLoop records [] with
    | error e => simp [setup_student_data, hloop] at h
    | ok data =>
      simp [setup_student_data, hloop] at h
      exact h ▸ wf_update data f2 (wf_setupLoop records [] data wf_nil hloop)

/-- Concrete run of the amended C6 statement after a successful mark. -/
theorem C6_invariant_witness :
    wfRoster (mark_attendance (strCodes "08:30") ⟨true, true, true⟩
      [("A1", ⟨"Alice", defaultAttendance⟩)] "A1").students :=
  C6_invariant.2.2.1 (strCodes "08:30") ⟨true, true, true⟩
    [("A1", ⟨"Alice", defaultAttendance⟩)] "A1" (by decide)

/-- C7: a successful mark changes no other subject's entry, and for the
marked subject changes no session other than the active one. -/
theorem C7_frame (now : List Nat) (store : Store) (students : StudentsData)
    (rawPrn lec : String)
    (hlec : get_current_lecture now = some lec)
    (hmark : (mark_attendance now store students rawPrn).outcome = MarkOutcome.marked) :
    (∀ p, p ≠ pyStrip rawPrn →
      alookup (mark_attendance now store students rawPrn).students p =
        alookup students p) ∧
    (∀ student, alookup students (pyStrip rawPrn) = some student →
      ∃ upd,
        alookup (mark_attendance now store students rawPrn).students (pyStrip rawPrn) =
          some upd ∧
        ∀ s, s ≠ lec → alookup upd.attendance s = alookup student.attendance s) := by
  rcases mark_spec now store students rawPrn with ⟨ho, _, _⟩ |
    ⟨lec2, stu, hlec2, hstu, ho, he, hs⟩
  · exact absurd hmark ho
  · have hl : lec2 = lec := Option.some.inj (hlec2.symm.trans hlec)
    subst hl
    constructor
    · intro p hp
      rw [hs, alookup_aset_ne _ _ _ _ hp]
    · intro student hstud
      have hss : stu = student := Option.some.inj (hstu.symm.trans hstud)
      subst hss
      refine ⟨⟨stu.name, aset stu.attendance lec2 "Present"⟩, ?_, ?_⟩
      · rw [hs, alookup_aset_self]
      · intro s hsne
        exact alookup_aset_ne _ _ _ _ hsne

/-- Concrete run of C7: marking A1 leaves B2's entry untouched. -/
theorem C7_frame_witness :
    alookup (mark_attendance (strCodes "08:30") ⟨true, true, true⟩
      [("A1", ⟨"Alice", defaultAttendance⟩), ("B2", ⟨"Bob", defaultAttendance⟩)]
      "A1").students "B2" =
    alookup [("A1", ⟨"Alice", defaultAttendance⟩),
      ("B2", ⟨"Bob", defaultAttendance⟩)] "B2" :=
  (C7_frame (strCodes "08:30") ⟨true, true, true⟩
    [("A1", ⟨"Alice", defaultAttendance⟩), ("B2", ⟨"Bob", defaultAttendance⟩)]
    "A1" "Lecture1" (by decide) (by decide)).1 "B2" (by decide)

/-- C8: when every template has the probe's dimensionality the matcher
succeeds; a candidate is in the result iff its distance is within
tolerance, a template identical to the probe is always included when the
tolerance is positive, and with tolerance zero a probe identical to no
template yields the empty result. -/
theorem C8_matcher (encs : List (String × List Rat)) (probe : List Rat) (tol : Rat)
    (hdim : ∀ e ∈ encs, e.2.length = probe.length) :
    ∃ ms, candidatesForProbe encs probe tol = Except.ok ms ∧
      (∀ prn, prn ∈ ms ↔ ∃ v, (prn, v) ∈ encs ∧ sumSqDiff v probe ≤ tol * tol) ∧
      (0 < tol → ∀ prn, (prn, probe) ∈ encs → prn ∈ ms) ∧
      (tol = 0 → (∀ e ∈ encs, e.2 ≠ probe) → ms = []) := by
  obtain ⟨ms, hms, hiff⟩ := candidates_ok encs probe tol hdim
  refine ⟨ms, hms, hiff, ?_, ?_⟩
  · intro _ prn hmem
    exact (hiff prn).mpr
      ⟨probe, hmem, by rw [sumSqDiff_self]; exact mul_self_nonneg tol⟩
  · intro htol hne
    rw [List.eq_nil_iff_forall_not_mem]
    intro prn hmem
    obtain ⟨v, hv, hvle⟩ := (hiff prn).mp hmem
    have hv0 : sumSqDiff v probe = 0 :=
      le_antisymm (by simpa [htol] using hvle) (sumSqDiff_nonneg v probe)
    exact hne (prn, v) hv (eq_of_sumSqDiff_eq_zero v probe (hdim (prn, v) hv) hv0)

/-- Concrete run of C8 on a one-template set. -/
theorem C8_matcher_witness :
    ∃ ms, candidatesForProbe [("A", [(0 : Rat), 1])] [0, 1] 1 = Except.ok ms ∧
      (∀ prn, prn ∈ ms ↔
        ∃ v, (prn, v) ∈ [("A", [(0 : Rat), 1])] ∧ sumSqDiff v [0, 1] ≤ 1 * 1) ∧
      ((0 : Rat) < 1 → ∀ prn, (prn, [(0 : Rat), 1]) ∈ [("A", [(0 : Rat), 1])] →
        prn ∈ ms) ∧
      ((1 : Rat) = 0 → (∀ e ∈ [("A", [(0 : Rat), 1])], e.2 ≠ [(0 : Rat), 1]) →
        ms = []) :=
  C8_matcher [("A", [(0 : Rat), 1])] [0, 1] 1 (by decide)

/-- C9 counterexample: one probe of wrong dimensionality aborts the whole
frame, so a well-formed probe in the same batch — which alone would
produce the candidate `A` — produces nothing. -/
theorem C9_counterexample :
    frameCandidates [[(0 : Rat), 0], [0]] [("A", [0])] 1 = ([], true) ∧
    frameCandidates [[(0 : Rat)]] [("A", [0])] 1 = ([["A"]], false) := by
  constructor
  · rfl
  · norm_num [frameCandidates, candidatesForProbe, sumSqDiff]

/-- C9 (amended): a probe whose comparison raises (wrong dimensionality)
aborts the remainder of the frame batch: the abort flag is set and only
probes before the bad one can have produced candidate lists. -/
theorem C9_batch_abort (probes1 : List (List Rat)) (bad : List Rat)
    (probes2 : List (List Rat)) (encs : List (String × List Rat)) (tol : Rat)
    (hbad : candidatesForProbe encs bad tol = Except.error ()) :
    (frameCandidates (probes1 ++ bad :: probes2) encs tol).2 = true ∧
    (frameCandidates (probes1 ++ bad :: probes2) encs tol).1.length ≤
      probes1.length := by
  induction probes1 with
  | nil => simp [frameCandidates, hbad]
  | cons p ps ih =>
    cases hc : candidatesForProbe encs p tol with
    | error e => simp [frameCandidates, hc]
    | ok cs =>
      simp only [List.cons_append, frameCandidates, hc]
      exact ⟨ih.1, by simpa using Nat.succ_le_succ ih.2⟩

/-- Concrete run of the amended C9 statement. -/
theorem C9_batch_abort_witness :
    (frameCandidates ([[(0 : Rat)]] ++ [(0 : Rat), 0] :: [[(0 : Rat)]])
      [("A", [0])] 1).2 = true ∧
    (frameCandidates ([[(0 : Rat)]] ++ [(0 : Rat), 0] :: [[(0 : Rat)]])
      [("A", [0])] 1).1.length ≤ 1 :=
  C9_batch_abort [[(0 : Rat)]] [(0 : Rat), 0] [[(0 : Rat)]] [("A", [0])] 1 rfl

/-- C10: lexicographic comparison of zero-padded `"HH:MM"` strings agrees
with chronological comparison of the denoted times, and the string-based
resolver coincides with the resolver over numeric minutes of day. -/
theorem C10_refinement :
    (∀ h1 m1 h2 m2 : Nat, h1 < 24 → m1 < 60 → h2 < 24 → m2 < 60 →
      ((pyLt (fmtHM h1 m1) (fmtHM h2 m2) = true ↔ 60 * h1 + m1 < 60 * h2 + m2) ∧
       (pyLe (fmtHM h1 m1) (fmtHM h2 m2) = true ↔ 60 * h1 + m1 ≤ 60 * h2 + m2))) ∧
    (∀ h : Nat, h < 24 → ∀ m : Nat, m < 60 →
      get_current_lecture (fmtHM h m) = lectureAtMinute (60 * h + m)) := by
  refine ⟨fun h1 m1 h2 m2 hh1 hm1 hh2 hm2 =>
    ⟨pyLt_fmtHM h1 m1 h2 m2 hh1 hm1 hh2 hm2,
     pyLe_fmtHM h1 m1 h2 m2 hh1 hm1 hh2 hm2⟩, ?_⟩
  decide

/-- Concrete run of C10 at 08:30 vs 09:00. -/
theorem C10_refinement_witness :
    ((pyLt (fmtHM 8 30) (fmtHM 9 0) = true ↔ 60 * 8 + 30 < 60 * 9 + 0) ∧
     (pyLe (fmtHM 8 30) (fmtHM 9 0) = true ↔ 60 * 8 + 30 ≤ 60 * 9 + 0)) ∧
    get_current_lecture (fmtHM 8 30) = lectureAtMinute (60 * 8 + 30) :=
  ⟨C10_refinement.1 8 30 9 0 (by decide) (by decide) (by decide) (by decide),
   C10_refinement.2 8 (by decide) 30 (by decide)⟩

end Attendify
